import Mathlib

/-!
Verification of the file-manager repository (src/utils.py, src/pictures.py).

The Python code is shallowly embedded as follows:
* Filesystem calls (`os.rename`, `os.mkdir`) go through an abstract
  environment `FsEnv`: a function from the history of operations already
  attempted (so retries after an `os.mkdir` can succeed) and the operation
  being attempted to an `OsResult`.  `OsResult.winError` models a raised
  `WindowsError` (= `OSError` on Windows) carrying its `strerror` text;
  `OsResult.typeError` models a raised `TypeError`; `OsResult.otherError`
  models any other raised exception (caught nowhere in the source).
* The unbounded `while` retry loops are given explicit fuel; running out of
  fuel yields a dedicated `outOfFuel` outcome (a modelling artifact standing
  for nontermination, never for a recorded bucket entry).
* Every function returns, alongside its outcome, the list of filesystem
  operations it attempted, so that absence of filesystem mutation is a
  statement about an empty trace.
* `datetime.fromtimestamp(..).strftime(..)` is timezone-dependent Python
  runtime behaviour, so the formatter is taken as an abstract parameter
  `fmt : Int → String`; timestamps are modelled as integers (the claims only
  distinguish zero from nonzero, and Python truthiness of a timestamp is
  exactly "nonzero").
-/

namespace FileManager

/-- Python `s.lower()` (ASCII case folding, which covers every string the
source compares case-insensitively). -/
def pyLower (s : String) : String := String.mk (s.toList.map Char.toLower)

/-- Python `s.upper()` (ASCII case folding). -/
def pyUpper (s : String) : String := String.mk (s.toList.map Char.toUpper)

/-- Whether `sub` occurs as a contiguous substring, Python `sub in s` on the
character lists. -/
def listContainsSub (sub : List Char) : List Char → Bool
  | [] => sub.isEmpty
  | c :: t => sub.isPrefixOf (c :: t) || listContainsSub sub t

/-- Python `sub in s` for strings. -/
def pyContains (s sub : String) : Bool := listContainsSub sub.toList s.toList

/-- Index of the last character satisfying `p`, or `-1` (Python `str.rfind`
restricted to single-character needles, as `os.path.splitext` uses it). -/
def lastIdx (p : Char → Bool) (l : List Char) : Int :=
  l.enum.foldl (fun acc ic => if p ic.2 then Int.ofNat ic.1 else acc) (-1)

/-- `ntpath.splitext` (Windows `os.path.splitext`): split off the extension
at the last dot of the last path component, unless every character between
the component start and that dot is itself a dot (leading dots do not start
an extension). -/
def splitext (p : String) : String × String :=
  let cs := p.toList
  let sepIndex := max (lastIdx (fun c => c = '\\') cs) (lastIdx (fun c => c = '/') cs)
  let dotIndex := lastIdx (fun c => c = '.') cs
  if sepIndex < dotIndex then
    let start := (sepIndex + 1).toNat
    let dotN := dotIndex.toNat
    if (List.range (dotN - start)).all (fun j => cs.get? (start + j) = some '.') then
      (p, "")
    else
      (String.mk (cs.take dotN), String.mk (cs.drop dotN))
  else (p, "")

/-- `get_file_extension` from src/utils.py: `root, extension =
os.path.splitext(file_name); return extension`. -/
def get_file_extension (file_name : String) : String := (splitext file_name).2

/-- `os.path.join(a, b)` for the shapes the source produces: a directory
that may or may not end in a separator, joined with a relative entry name
(drive-letter handling is irrelevant to every claim). -/
def os_path_join (a b : String) : String :=
  if a = "" then b
  else if b.toList.take 1 = ['\\'] then b
  else if a.toList.getLast? = some '\\' then a ++ b
  else a ++ "\\" ++ b

/-- `MEDIA_EXTENSIONS` from src/pictures.py. -/
def MEDIA_EXTENSIONS : List String :=
  [".jpg", ".jpeg", ".png", ".mp4", ".bmp", ".3g2", ".avi", ".3gp", ".mov", ".wmv"]

/-- A filesystem operation attempted by the program. -/
inductive FsOp where
  | rename (src dst : String)
  | mkdir (d : String)
deriving DecidableEq, Repr

/-- Result of one filesystem call: success, a raised `WindowsError` with its
`strerror` text, a raised `TypeError` with its message, or any other raised
exception. -/
inductive OsResult where
  | ok
  | winError (strerror : String)
  | typeError (msg : String)
  | otherError (msg : String)
deriving DecidableEq, Repr

/-- The filesystem environment: the result of an operation may depend on the
operations already attempted before it (this is how a retry after `os.mkdir`
can behave differently from the first attempt). -/
def FsEnv : Type := List FsOp → FsOp → OsResult

/-! ### Timestamp extraction (`DateName`, src/utils.py) -/

/-- Python `s.replace(c, r)` for a single-character needle. -/
def pyReplaceChar (s : String) (c : Char) (r : String) : String :=
  String.mk (s.toList.foldr (fun ch acc => if ch = c then r.toList ++ acc else ch :: acc) [])

/-- Python `s.strip()`. -/
def pyStrip (s : String) : String :=
  String.mk (((s.toList.dropWhile Char.isWhitespace).reverse.dropWhile Char.isWhitespace).reverse)

/-- `DateName.get_date_created`: `os.path.getctime` gives `ctime`; the result
is formatted only `if date_created:` — Python truthiness, i.e. a zero
timestamp produces `None`. -/
def get_date_created (fmt : Int → String) (ctime : Int) : Option String :=
  if ctime ≠ 0 then some (fmt ctime) else none

/-- `DateName.get_date_modified`: same structure on `os.path.getmtime`. -/
def get_date_modified (fmt : Int → String) (mtime : Int) : Option String :=
  if mtime ≠ 0 then some (fmt mtime) else none

/-- `DateName.get_date_taken`: the raw value of the `EXIF DateTimeOriginal`
tag, if present, is normalised by `.replace(':', '').strip().replace(' ', '_')`;
a missing tag (the `AttributeError` path) yields `None`. -/
def get_date_taken (tag : Option String) : Option String :=
  match tag with
  | none => none
  | some v => some (pyReplaceChar (pyStrip (pyReplaceChar v ':' "")) ' ' "_")

/-- `DateName.determine_name`: `min(date for date in [created, taken,
modified] if date is not None)`, with the all-`None` `ValueError` leaving the
name unset (`none`). -/
def determine_name (date_created date_taken date_modified : Option String) : Option String :=
  match ([date_created, date_taken, date_modified].filterMap id) with
  | [] => none
  | d :: ds => some (ds.foldl min d)

/-- The whole `DateName` pipeline: gather the three candidate dates of a file
(creation time, taken tag, modification time) and keep the minimum. -/
def dateName (fmt : Int → String) (ctime mtime : Int) (tag : Option String) : Option String :=
  determine_name (get_date_created fmt ctime) (get_date_taken tag) (get_date_modified fmt mtime)

/-! ### `PictureRenamer.rename_file` (src/pictures.py) -/

/-- Outcome of processing one file in the renamer; `propagated` is an
exception escaping the batch, `outOfFuel` stands for nontermination of the
unbounded retry loop. -/
inductive RenameOutcome where
  | renamed (entry : String)
  | skippedName (entry : String)
  | skippedExt (entry : String)
  | failed (entry : String)
  | propagated (msg : String)
  | outOfFuel
deriving DecidableEq, Repr

/-- The `while try_renaming` loop of `PictureRenamer.rename_file`: state is
the current candidate `new_file_name` and `unique_num`.  The name-unchanged
check runs at the top of every iteration; a `WindowsError` (of any message)
increments `unique_num` and retries with `new_name + "_<n>" + ext`; a
`TypeError` records a failure with the message captured; any other exception
propagates. -/
def renameLoop (env : FsEnv) (file_name new_name ext : String) :
    Nat → String → Nat → List FsOp → RenameOutcome × List FsOp
  | 0, _, _, tr => (.outOfFuel, tr)
  | fuel + 1, cand, k, tr =>
    if cand = file_name then (.skippedName file_name, tr)
    else
      let op := FsOp.rename file_name cand
      match env tr op with
      | .ok => (.renamed ("\"" ++ file_name ++ "\" renamed \"" ++ cand ++ "\""), tr ++ [op])
      | .winError _ =>
          renameLoop env file_name new_name ext fuel
            (new_name ++ "_" ++ toString (k + 1) ++ ext) (k + 1) (tr ++ [op])
      | .typeError m =>
          (.failed ("Failed to rename " ++ file_name ++ ". Reason: " ++ m), tr ++ [op])
      | .otherError m => (.propagated m, tr ++ [op])

/-- `PictureRenamer.rename_file`: start from `new_file_name = new_name + ext`
and `unique_num = 0`. -/
def rename_file (env : FsEnv) (fuel : Nat) (file_name new_name ext : String)
    (tr : List FsOp) : RenameOutcome × List FsOp :=
  renameLoop env file_name new_name ext fuel (new_name ++ ext) 0 tr

/-- One iteration of `FileRenamer.process_files` for one directory entry:
extension filter, full-path join, name derivation (the `get_new_name` hook,
abstracted as `derive`), then `rename_file`. -/
def processOneRename (derive : String → Option String) (env : FsEnv) (fuel : Nat)
    (path entry : String) (tr : List FsOp) : RenameOutcome × List FsOp :=
  let ext := get_file_extension entry
  let file_name := os_path_join path entry
  if (MEDIA_EXTENSIONS.contains (pyLower ext) : Bool) = false then
    (.skippedExt file_name, tr)
  else
    match derive file_name with
    | none =>
        (.failed ("Failed to rename " ++ file_name ++
          " because no new name could be determined."), tr)
    | some nm => rename_file env fuel file_name (os_path_join path nm) ext tr

/-- The four outcome buckets of `FileRenamer`. -/
structure RenamerBuckets where
  successfully_renamed : List String
  skipped_new_name_matches_old : List String
  failed_to_rename : List String
  skipped_different_extension : List String
deriving DecidableEq, Repr

/-- Buckets at `__init__` time. -/
def emptyRenamerBuckets : RenamerBuckets := ⟨[], [], [], []⟩

/-- Total number of recorded entries across the renamer buckets. -/
def renCount (b : RenamerBuckets) : Nat :=
  b.successfully_renamed.length + b.skipped_new_name_matches_old.length +
    b.failed_to_rename.length + b.skipped_different_extension.length

/-- How a batch run ended: normally, by an uncaught exception, or by the
fuel bound standing in for a nonterminating retry loop. -/
inductive BatchEnd where
  | normal
  | propagated
  | fuelOut
deriving DecidableEq, Repr

/-- `FileRenamer.process_files`: fold over the listed entries, each appending
to exactly one bucket; an uncaught exception aborts the remaining entries. -/
def processFilesRenamer (derive : String → Option String) (env : FsEnv) (fuel : Nat)
    (path : String) :
    List String → RenamerBuckets → List FsOp → RenamerBuckets × List FsOp × BatchEnd
  | [], b, tr => (b, tr, .normal)
  | f :: fs, b, tr =>
    match processOneRename derive env fuel path f tr with
    | (.renamed e, tr2) =>
        processFilesRenamer derive env fuel path fs
          { b with successfully_renamed := b.successfully_renamed ++ [e] } tr2
    | (.skippedName e, tr2) =>
        processFilesRenamer derive env fuel path fs
          { b with skipped_new_name_matches_old := b.skipped_new_name_matches_old ++ [e] } tr2
    | (.skippedExt e, tr2) =>
        processFilesRenamer derive env fuel path fs
          { b with skipped_different_extension := b.skipped_different_extension ++ [e] } tr2
    | (.failed e, tr2) =>
        processFilesRenamer derive env fuel path fs
          { b with failed_to_rename := b.failed_to_rename ++ [e] } tr2
    | (.propagated _, tr2) => (b, tr2, .propagated)
    | (.outOfFuel, tr2) => (b, tr2, .fuelOut)

/-! ### `PictureSorter.move_file` (src/pictures.py) -/

/-- Outcome of processing one file in the sorter. -/
inductive MoveOutcome where
  | moved (entry : String)
  | skippedExt (entry : String)
  | failed (entry : String)
  | propagated (msg : String)
  | outOfFuel
deriving DecidableEq, Repr

/-- The `while try_moving` loop of `PictureSorter.move_file`: a raised
`WindowsError` is dispatched on its `strerror` text — a message containing
"file already exists" re-suffixes the original file name and retries, one
containing "cannot find the path" creates `<base_path>\<sort_key>` and
retries (an `os.mkdir` failure propagates uncaught), and any other message
records a failure whose bucket entry is the bare `file_name`; exceptions
that are not `WindowsError` propagate uncaught. -/
def moveLoop (env : FsEnv) (input_path base_path file_name sort_key : String) :
    Nat → String → Nat → List FsOp → MoveOutcome × List FsOp
  | 0, _, _, tr => (.outOfFuel, tr)
  | fuel + 1, new_file_path, k, tr =>
    let current_file_path := input_path ++ "\\" ++ file_name
    let op := FsOp.rename current_file_path new_file_path
    match env tr op with
    | .ok =>
        (.moved ("\"" ++ current_file_path ++ "\" moved to \"" ++ new_file_path ++ "\"."),
          tr ++ [op])
    | .winError s =>
        if pyContains s "file already exists" then
          let root := (splitext file_name).1
          let ext := (splitext file_name).2
          let new_file_name := root ++ "_" ++ toString (k + 1) ++ ext
          moveLoop env input_path base_path file_name sort_key fuel
            (base_path ++ "\\" ++ sort_key ++ "\\" ++ new_file_name) (k + 1) (tr ++ [op])
        else if pyContains s "cannot find the path" then
          let new_dir := base_path ++ "\\" ++ sort_key
          let mop := FsOp.mkdir new_dir
          match env (tr ++ [op]) mop with
          | .ok =>
              moveLoop env input_path base_path file_name sort_key fuel
                new_file_path k (tr ++ [op, mop])
          | .winError m => (.propagated m, tr ++ [op, mop])
          | .typeError m => (.propagated m, tr ++ [op, mop])
          | .otherError m => (.propagated m, tr ++ [op, mop])
        else (.failed file_name, tr ++ [op])
    | .typeError m => (.propagated m, tr ++ [op])
    | .otherError m => (.propagated m, tr ++ [op])

/-- `PictureSorter.move_file`: `sort_key = file_name[0:4]`, source path
`input_path\file_name`, first target `base_path\sort_key\file_name`. -/
def move_file (env : FsEnv) (fuel : Nat) (input_path base_path file_name : String)
    (tr : List FsOp) : MoveOutcome × List FsOp :=
  let sort_key := file_name.take 4
  moveLoop env input_path base_path file_name sort_key fuel
    (base_path ++ "\\" ++ sort_key ++ "\\" ++ file_name) 0 tr

/-- One iteration of `FileSorter.process_files` for one directory entry:
extension filter (the bucket entry here is the bare entry name), then
`move_file`. -/
def processOneSort (env : FsEnv) (fuel : Nat) (input_path base_path entry : String)
    (tr : List FsOp) : MoveOutcome × List FsOp :=
  let ext := get_file_extension entry
  if (MEDIA_EXTENSIONS.contains (pyLower ext) : Bool) = false then
    (.skippedExt entry, tr)
  else move_file env fuel input_path base_path entry tr

/-- The three outcome buckets of `FileSorter`. -/
structure SorterBuckets where
  successfully_moved : List String
  failed_to_move : List String
  skipped_different_extension : List String
deriving DecidableEq, Repr

/-- Buckets at `__init__` time. -/
def emptySorterBuckets : SorterBuckets := ⟨[], [], []⟩

/-- Total number of recorded entries across the sorter buckets. -/
def sortCount (b : SorterBuckets) : Nat :=
  b.successfully_moved.length + b.failed_to_move.length +
    b.skipped_different_extension.length

/-- `FileSorter.process_files`. -/
def processFilesSorter (env : FsEnv) (fuel : Nat) (input_path base_path : String) :
    List String → SorterBuckets → List FsOp → SorterBuckets × List FsOp × BatchEnd
  | [], b, tr => (b, tr, .normal)
  | f :: fs, b, tr =>
    match processOneSort env fuel input_path base_path f tr with
    | (.moved e, tr2) =>
        processFilesSorter env fuel input_path base_path fs
          { b with successfully_moved := b.successfully_moved ++ [e] } tr2
    | (.skippedExt e, tr2) =>
        processFilesSorter env fuel input_path base_path fs
          { b with skipped_different_extension := b.skipped_different_extension ++ [e] } tr2
    | (.failed e, tr2) =>
        processFilesSorter env fuel input_path base_path fs
          { b with failed_to_move := b.failed_to_move ++ [e] } tr2
    | (.propagated _, tr2) => (b, tr2, .propagated)
    | (.outOfFuel, tr2) => (b, tr2, .fuelOut)

/-! ### `get_files` and the batch runs (src/utils.py) -/

/-- Result of the `get_files` retry loop: the listing succeeded (with the
path in force at that moment), the operator answered `N`, the operator gave
an unrecognised answer, or the model ran out of operator input / fuel
(standing for `input()` blocking forever). -/
inductive GfOutcome where
  | found (files : List String) (path : String)
  | aborted
  | badInput
  | blocked
deriving DecidableEq, Repr

/-- The not-found prompt, exactly as the source formats it. -/
def notFoundPrompt (path : String) : String :=
  "The path \"" ++ path ++ "\" was not found. Do you want to continue? (Y/N)"

/-- The prompt for a replacement path. -/
def newPathPrompt : String := "Please enter a new path:"

/-- The line printed on an unrecognised answer. -/
def badInputLine : String :=
  "You did not input a correct value to answer if you wanted to continue."

/-- `FileRenamer.get_files` and `FileSorter.get_files` (line for line the
same logic): `os.listdir` is the abstract `listdir` (`none` = the
`WindowsError` path-not-found case); operator input is a list of strings;
the returned list of strings is every prompt or message shown, in order.
The answer comparison is `input(..).upper() == 'N'` / `== 'Y'`. -/
def get_files (listdir : String → Option (List String)) :
    Nat → String → List String → GfOutcome × List String
  | 0, _, _ => (.blocked, [])
  | fuel + 1, path, inputs =>
    match listdir path with
    | some fs => (.found fs path, [])
    | none =>
      match inputs with
      | [] => (.blocked, [notFoundPrompt path])
      | ans :: rest =>
        if pyUpper ans = "N" then (.aborted, [notFoundPrompt path])
        else if pyUpper ans = "Y" then
          match rest with
          | [] => (.blocked, [notFoundPrompt path, newPathPrompt])
          | newPath :: rest2 =>
            let r := get_files listdir fuel newPath rest2
            (r.1, notFoundPrompt path :: newPathPrompt :: r.2)
        else (.badInput, [notFoundPrompt path, badInputLine])

/-- `PictureRenamer.__init__`: `get_files`, then `if self.files:
process_files()`; when `get_files` aborts, `self.files` is still the empty
list it was initialised to, so every bucket stays empty. -/
def runRenamer (derive : String → Option String) (env : FsEnv)
    (listdir : String → Option (List String)) (fuel : Nat) (path : String)
    (inputs : List String) : RenamerBuckets × List String × BatchEnd :=
  match get_files listdir fuel path inputs with
  | (.found fs p, outs) =>
    if fs.isEmpty then (emptyRenamerBuckets, outs, .normal)
    else
      let r := processFilesRenamer derive env fuel p fs emptyRenamerBuckets []
      (r.1, outs, r.2.2)
  | (_, outs) => (emptyRenamerBuckets, outs, .normal)

/-- `PictureSorter.__init__`: same shape with the sorter buckets. -/
def runSorter (env : FsEnv) (listdir : String → Option (List String)) (fuel : Nat)
    (input_path base_path : String) (inputs : List String) :
    SorterBuckets × List String × BatchEnd :=
  match get_files listdir fuel input_path inputs with
  | (.found fs p, outs) =>
    if fs.isEmpty then (emptySorterBuckets, outs, .normal)
    else
      let r := processFilesSorter env fuel p base_path fs emptySorterBuckets []
      (r.1, outs, r.2.2)
  | (_, outs) => (emptySorterBuckets, outs, .normal)

/-! ## Claims -/

/-- C1: `determine_name`, given the three optional formatted timestamp
strings, returns `none` exactly when all three are `none`, and otherwise
returns one of the non-null inputs that is lexicographically least among
them (it is a function, hence deterministic). -/
theorem C1_determine_name_minimum :
    ∀ c t m : Option String,
      (determine_name c t m = none ↔ (c = none ∧ t = none ∧ m = none)) ∧
      (∀ r : String, determine_name c t m = some r →
        ((c = some r ∨ t = some r ∨ m = some r) ∧
          (∀ s : String, (c = some s ∨ t = some s ∨ m = some s) → r ≤ s))) := by
  intro c t m
  rcases c with _ | a <;> rcases t with _ | b <;> rcases m with _ | d <;>
      refine ⟨by simp [determine_name], ?_⟩ <;> intro r hr <;>
      simp only [determine_name, List.filterMap, Option.some.injEq, id,
        List.foldl] at hr
  · exact absurd hr (by simp)
  · subst hr
    refine ⟨Or.inr (Or.inr rfl), ?_⟩
    rintro s (h | h | h)
    · exact Option.noConfusion h
    · exact Option.noConfusion h
    · exact le_of_eq (Option.some.inj h)
  · subst hr
    refine ⟨Or.inr (Or.inl rfl), ?_⟩
    rintro s (h | h | h)
    · exact Option.noConfusion h
    · exact le_of_eq (Option.some.inj h)
    · exact Option.noConfusion h
  · refine ⟨?_, ?_⟩
    · rcases min_choice b d with h | h
      · exact Or.inr (Or.inl (by rw [← hr, h]))
      · exact Or.inr (Or.inr (by rw [← hr, h]))
    · rintro s (h | h | h)
      · exact Option.noConfusion h
      · rw [← hr, ← Option.some.inj h]; exact min_le_left b d
      · rw [← hr, ← Option.some.inj h]; exact min_le_right b d
  · subst hr
    refine ⟨Or.inl rfl, ?_⟩
    rintro s (h | h | h)
    · exact le_of_eq (Option.some.inj h)
    · exact Option.noConfusion h
    · exact Option.noConfusion h
  · refine ⟨?_, ?_⟩
    · rcases min_choice a d with h | h
      · exact Or.inl (by rw [← hr, h])
      · exact Or.inr (Or.inr (by rw [← hr, h]))
    · rintro s (h | h | h)
      · rw [← hr, ← Option.some.inj h]; exact min_le_left a d
      · exact Option.noConfusion h
      · rw [← hr, ← Option.some.inj h]; exact min_le_right a d
  · refine ⟨?_, ?_⟩
    · rcases min_choice a b with h | h
      · exact Or.inl (by rw [← hr, h])
      · exact Or.inr (Or.inl (by rw [← hr, h]))
    · rintro s (h | h | h)
      · rw [← hr, ← Option.some.inj h]; exact min_le_left a b
      · rw [← hr, ← Option.some.inj h]; exact min_le_right a b
      · exact Option.noConfusion h
  · refine ⟨?_, ?_⟩
    · rcases min_choice (min a b) d with h | h
      · rcases min_choice a b with h2 | h2
        · exact Or.inl (by rw [← hr, h, h2])
        · exact Or.inr (Or.inl (by rw [← hr, h, h2]))
      · exact Or.inr (Or.inr (by rw [← hr, h]))
    · rintro s (h | h | h)
      · rw [← hr, ← Option.some.inj h]
        exact le_trans (min_le_left (min a b) d) (min_le_left a b)
      · rw [← hr, ← Option.some.inj h]
        exact le_trans (min_le_left (min a b) d) (min_le_right a b)
      · rw [← hr, ← Option.some.inj h]; exact min_le_right (min a b) d

/-- Witness for C1 at a concrete input: of the two present timestamp
strings the earlier one is selected. -/
theorem C1_witness :
    (some "20230101_000000" = some "20210501_100000" ∨
      (none : Option String) = some "20210501_100000" ∨
      some "20210501_100000" = some "20210501_100000") ∧
    (∀ s : String,
      (some "20230101_000000" = some s ∨ (none : Option String) = some s ∨
        some "20210501_100000" = some s) → "20210501_100000" ≤ s) :=
  (C1_determine_name_minimum (some "20230101_000000") none
    (some "20210501_100000")).2 "20210501_100000"
    (by
      rw [show determine_name (some "20230101_000000") none (some "20210501_100000")
            = some (min "20230101_000000" "20210501_100000") from rfl]
      rw [min_eq_right (String.le_iff_toList_le.mpr (by decide))])

/-- C2 counterexample: in `PictureRenamer.rename_file` the suffix-retry loop
is entered by a `WindowsError` whose message is NOT of the "file already
exists" class.  With a filesystem whose first rename attempt raises
`WindowsError` with `strerror` "Access is denied" and whose second attempt
succeeds, the file is renamed to the `_1`-suffixed name instead of being
recorded as failed with the error message captured. -/
theorem C2_counterexample :
    rename_file
      (fun tr _ => if tr = [] then OsResult.winError "Access is denied" else .ok)
      3 "C:\\p\\a.jpg" "C:\\p\\20210501_100000" ".jpg" []
      = (.renamed "\"C:\\p\\a.jpg\" renamed \"C:\\p\\20210501_100000_1.jpg\"",
         [.rename "C:\\p\\a.jpg" "C:\\p\\20210501_100000.jpg",
          .rename "C:\\p\\a.jpg" "C:\\p\\20210501_100000_1.jpg"]) := by
  decide

/-- C2 (amended): in `PictureRenamer.rename_file` the suffix-retry loop is
entered on every `WindowsError` raised by the rename, regardless of its
message, appending `_<n>` with `n` starting at 1 and incrementing by one per
retry; a `TypeError` is recorded as failed with the error's message
captured and processing of that file stops; any other error type propagates
out of the loop uncaught. -/
theorem C2_renamer_error_dispatch :
    (∀ (env : FsEnv) (f nn e s : String) (fuel : Nat) (tr : List FsOp),
        nn ++ e ≠ f → env tr (.rename f (nn ++ e)) = .winError s →
        rename_file env (fuel + 1) f nn e tr
          = renameLoop env f nn e fuel (nn ++ "_" ++ toString 1 ++ e) 1
              (tr ++ [.rename f (nn ++ e)])) ∧
    (∀ (env : FsEnv) (f nn e cand s : String) (fuel k : Nat) (tr : List FsOp),
        cand ≠ f → env tr (.rename f cand) = .winError s →
        renameLoop env f nn e (fuel + 1) cand k tr
          = renameLoop env f nn e fuel (nn ++ "_" ++ toString (k + 1) ++ e) (k + 1)
              (tr ++ [.rename f cand])) ∧
    (∀ (env : FsEnv) (f nn e cand m : String) (fuel k : Nat) (tr : List FsOp),
        cand ≠ f → env tr (.rename f cand) = .typeError m →
        renameLoop env f nn e (fuel + 1) cand k tr
          = (.failed ("Failed to rename " ++ f ++ ". Reason: " ++ m),
             tr ++ [.rename f cand])) ∧
    (∀ (env : FsEnv) (f nn e cand m : String) (fuel k : Nat) (tr : List FsOp),
        cand ≠ f → env tr (.rename f cand) = .otherError m →
        renameLoop env f nn e (fuel + 1) cand k tr
          = (.propagated m, tr ++ [.rename f cand])) := by
  refine ⟨?_, ?_, ?_, ?_⟩
  · intro env f nn e s fuel tr h henv
    simp only [rename_file, renameLoop]
    rw [if_neg h, henv]
  · intro env f nn e cand s fuel k tr h henv
    simp only [renameLoop]
    rw [if_neg h, henv]
  · intro env f nn e cand m fuel k tr h henv
    simp only [renameLoop]
    rw [if_neg h, henv]
  · intro env f nn e cand m fuel k tr h henv
    simp only [renameLoop]
    rw [if_neg h, henv]

/-- Witness for C2 at concrete inputs: one `WindowsError` step, one
`TypeError` step and one propagating step, each with its hypotheses
discharged by evaluation. -/
theorem C2_witness :
    (rename_file (fun _ _ => OsResult.winError "x") 3 "C:\\p\\a.jpg"
        "C:\\p\\nn" ".jpg" []
      = renameLoop (fun _ _ => OsResult.winError "x") "C:\\p\\a.jpg" "C:\\p\\nn" ".jpg" 2
          ("C:\\p\\nn" ++ "_" ++ toString 1 ++ ".jpg") 1
          ([] ++ [.rename "C:\\p\\a.jpg" ("C:\\p\\nn" ++ ".jpg")])) ∧
    (renameLoop (fun _ _ => OsResult.typeError "bad type") "C:\\p\\a.jpg" "C:\\p\\nn" ".jpg"
        (2 + 1) "C:\\p\\nn.jpg" 0 []
      = (.failed ("Failed to rename " ++ "C:\\p\\a.jpg" ++ ". Reason: " ++ "bad type"),
         [] ++ [.rename "C:\\p\\a.jpg" "C:\\p\\nn.jpg"])) ∧
    (renameLoop (fun _ _ => OsResult.otherError "boom") "C:\\p\\a.jpg" "C:\\p\\nn" ".jpg"
        (2 + 1) "C:\\p\\nn.jpg" 0 []
      = (.propagated "boom", [] ++ [.rename "C:\\p\\a.jpg" "C:\\p\\nn.jpg"])) :=
  ⟨C2_renamer_error_dispatch.1 (fun _ _ => OsResult.winError "x") "C:\\p\\a.jpg"
      "C:\\p\\nn" ".jpg" "x" 2 [] (by decide) rfl,
   C2_renamer_error_dispatch.2.2.1 (fun _ _ => OsResult.typeError "bad type") "C:\\p\\a.jpg"
      "C:\\p\\nn" ".jpg" "C:\\p\\nn.jpg" "bad type" 2 0 [] (by decide) rfl,
   C2_renamer_error_dispatch.2.2.2 (fun _ _ => OsResult.otherError "boom") "C:\\p\\a.jpg"
      "C:\\p\\nn" ".jpg" "C:\\p\\nn.jpg" "boom" 2 0 [] (by decide) rfl⟩

/-- Helper: on a normally completed renamer batch, the buckets gain exactly
one entry per listed file. -/
theorem processFilesRenamer_count (derive : String → Option String) (env : FsEnv)
    (fuel : Nat) (path : String) :
    ∀ (files : List String) (b : RenamerBuckets) (tr : List FsOp),
      (processFilesRenamer derive env fuel path files b tr).2.2 = .normal →
      renCount (processFilesRenamer derive env fuel path files b tr).1
        = renCount b + files.length := by
  intro files
  induction files with
  | nil => intro b tr _; simp [processFilesRenamer]
  | cons f fs ih =>
    intro b tr h
    rcases hp : processOneRename derive env fuel path f tr with ⟨o, tr2⟩
    cases o <;> simp only [processFilesRenamer, hp] at h ⊢
    · rw [ih _ _ h]; simp [renCount]; omega
    · rw [ih _ _ h]; simp [renCount]; omega
    · rw [ih _ _ h]; simp [renCount]; omega
    · rw [ih _ _ h]; simp [renCount]; omega
    · exact absurd h (by simp)
    · exact absurd h (by simp)

/-- Helper: same statement for the sorter batch. -/
theorem processFilesSorter_count (env : FsEnv) (fuel : Nat) (input base : String) :
    ∀ (files : List String) (b : SorterBuckets) (tr : List FsOp),
      (processFilesSorter env fuel input base files b tr).2.2 = .normal →
      sortCount (processFilesSorter env fuel input base files b tr).1
        = sortCount b + files.length := by
  intro files
  induction files with
  | nil => intro b tr _; simp [processFilesSorter]
  | cons f fs ih =>
    intro b tr h
    rcases hp : processOneSort env fuel input base f tr with ⟨o, tr2⟩
    cases o <;> simp only [processFilesSorter, hp] at h ⊢
    · rw [ih _ _ h]; simp [sortCount]; omega
    · rw [ih _ _ h]; simp [sortCount]; omega
    · rw [ih _ _ h]; simp [sortCount]; omega
    · exact absurd h (by simp)
    · exact absurd h (by simp)

/-- C3: when a batch completes normally (no uncaught exception, no
nonterminating retry loop), every listed file has been recorded in exactly
one outcome bucket: each per-file step appends exactly one entry to exactly
one bucket, so the total number of bucket entries grows by exactly the
number of listed files, for the renamer (4 buckets) and the sorter (3
buckets) alike. -/
theorem C3_every_file_in_one_bucket :
    (∀ (derive : String → Option String) (env : FsEnv) (fuel : Nat) (path : String)
        (files : List String) (b : RenamerBuckets) (tr : List FsOp),
        (processFilesRenamer derive env fuel path files b tr).2.2 = .normal →
        renCount (processFilesRenamer derive env fuel path files b tr).1
          = renCount b + files.length) ∧
    (∀ (env : FsEnv) (fuel : Nat) (input base : String)
        (files : List String) (b : SorterBuckets) (tr : List FsOp),
        (processFilesSorter env fuel input base files b tr).2.2 = .normal →
        sortCount (processFilesSorter env fuel input base files b tr).1
          = sortCount b + files.length) :=
  ⟨fun derive env fuel path files b tr h =>
      processFilesRenamer_count derive env fuel path files b tr h,
   fun env fuel input base files b tr h =>
      processFilesSorter_count env fuel input base files b tr h⟩

/-- Witness for C3: a concrete two-file batch (one renamed or moved, one
skipped by extension) ends with exactly two recorded entries in each
component. -/
theorem C3_witness :
    renCount (processFilesRenamer (fun _ => some "20200101_120000") (fun _ _ => .ok) 1
        "C:\\p" ["a.jpg", "b.txt"] emptyRenamerBuckets []).1
      = renCount emptyRenamerBuckets + (["a.jpg", "b.txt"] : List String).length ∧
    sortCount (processFilesSorter (fun _ _ => .ok) 1 "C:\\in" "C:\\out"
        ["20230115_103000.jpg", "b.txt"] emptySorterBuckets []).1
      = sortCount emptySorterBuckets + (["20230115_103000.jpg", "b.txt"] : List String).length :=
  ⟨C3_every_file_in_one_bucket.1 (fun _ => some "20200101_120000") (fun _ _ => .ok) 1
      "C:\\p" ["a.jpg", "b.txt"] emptyRenamerBuckets [] (by decide),
   C3_every_file_in_one_bucket.2 (fun _ _ => .ok) 1 "C:\\in" "C:\\out"
      ["20230115_103000.jpg", "b.txt"] emptySorterBuckets [] (by decide)⟩

/-- C4: a file whose extension (compared case-insensitively) is outside the
accepted media set is recorded as skipped-extension by both the renamer
(entry is the joined full path) and the sorter (entry is the bare name), and
no filesystem operation at all is attempted for it (the operation trace is
unchanged). -/
theorem C4_skipped_extension_no_mutation :
    (∀ (derive : String → Option String) (env : FsEnv) (fuel : Nat)
        (path f : String) (tr : List FsOp),
        MEDIA_EXTENSIONS.contains (pyLower (get_file_extension f)) = false →
        processOneRename derive env fuel path f tr
          = (.skippedExt (os_path_join path f), tr)) ∧
    (∀ (env : FsEnv) (fuel : Nat) (input base f : String) (tr : List FsOp),
        MEDIA_EXTENSIONS.contains (pyLower (get_file_extension f)) = false →
        processOneSort env fuel input base f tr = (.skippedExt f, tr)) := by
  constructor
  · intro derive env fuel path f tr h
    simp only [processOneRename]
    rw [if_pos h]
  · intro env fuel input base f tr h
    simp only [processOneSort]
    rw [if_pos h]

/-- Witness for C4: `notes.txt` is skipped by both components with an
untouched trace. -/
theorem C4_witness :
    processOneRename (fun _ => some "x") (fun _ _ => .ok) 3 "C:\\p" "notes.txt" []
      = (.skippedExt (os_path_join "C:\\p" "notes.txt"), []) ∧
    processOneSort (fun _ _ => .ok) 3 "C:\\in" "C:\\out" "notes.txt" []
      = (.skippedExt "notes.txt", []) :=
  ⟨C4_skipped_extension_no_mutation.1 (fun _ => some "x") (fun _ _ => .ok) 3
      "C:\\p" "notes.txt" [] (by decide),
   C4_skipped_extension_no_mutation.2 (fun _ _ => .ok) 3 "C:\\in" "C:\\out"
      "notes.txt" [] (by decide)⟩

/-- C5: when the initial listing fails with path-not-found, the exact prompt
`The path "<path>" was not found. Do you want to continue? (Y/N)` is shown
first; an answer whose uppercasing is `N` aborts (and then both batch runs
end normally with every outcome bucket empty); an answer uppercasing to `Y`
prompts for a new path and retries the listing on it; any other answer
prints the error line and aborts. -/
theorem C5_path_not_found_prompt :
    ∀ (listdir : String → Option (List String)) (fuel : Nat) (p : String),
      listdir p = none →
      (∀ inputs : List String,
        ((get_files listdir (fuel + 1) p inputs).2).head? = some (notFoundPrompt p)) ∧
      (∀ (ans : String) (rest : List String), pyUpper ans = "N" →
        get_files listdir (fuel + 1) p (ans :: rest) = (.aborted, [notFoundPrompt p])) ∧
      (∀ (ans newPath : String) (rest : List String), pyUpper ans = "Y" →
        get_files listdir (fuel + 1) p (ans :: newPath :: rest)
          = ((get_files listdir fuel newPath rest).1,
             notFoundPrompt p :: newPathPrompt :: (get_files listdir fuel newPath rest).2)) ∧
      (∀ (ans : String) (rest : List String), pyUpper ans ≠ "N" → pyUpper ans ≠ "Y" →
        get_files listdir (fuel + 1) p (ans :: rest)
          = (.badInput, [notFoundPrompt p, badInputLine])) ∧
      (∀ (derive : String → Option String) (env : FsEnv) (ans : String)
          (rest : List String), pyUpper ans = "N" →
        runRenamer derive env listdir (fuel + 1) p (ans :: rest)
          = (emptyRenamerBuckets, [notFoundPrompt p], .normal)) ∧
      (∀ (env : FsEnv) (base ans : String) (rest : List String), pyUpper ans = "N" →
        runSorter env listdir (fuel + 1) p base (ans :: rest)
          = (emptySorterBuckets, [notFoundPrompt p], .normal)) := by
  intro listdir fuel p hnf
  have habort : ∀ (ans : String) (rest : List String), pyUpper ans = "N" →
      get_files listdir (fuel + 1) p (ans :: rest) = (.aborted, [notFoundPrompt p]) := by
    intro ans rest h
    simp only [get_files, hnf]
    rw [if_pos h]
  refine ⟨?_, habort, ?_, ?_, ?_, ?_⟩
  · intro inputs
    cases inputs with
    | nil => simp [get_files, hnf]
    | cons ans rest =>
      simp only [get_files, hnf]
      by_cases hN : pyUpper ans = "N"
      · rw [if_pos hN]; rfl
      · rw [if_neg hN]
        by_cases hY : pyUpper ans = "Y"
        · rw [if_pos hY]
          cases rest with
          | nil => rfl
          | cons np r2 => rfl
        · rw [if_neg hY]; rfl
  · intro ans newPath rest h
    simp only [get_files, hnf]
    rw [if_neg (by rw [h]; decide), if_pos h]
  · intro ans rest hN hY
    simp only [get_files, hnf]
    rw [if_neg hN, if_neg hY]
  · intro derive env ans rest h
    simp only [runRenamer]
    rw [habort ans rest h]
  · intro env base ans rest h
    simp only [runSorter]
    rw [habort ans rest h]

/-- Witness for C5 at concrete inputs: a listing that always fails, answers
`n`, `y` (then a resolvable path) and `maybe`. -/
theorem C5_witness :
    ((get_files (fun _ => none) 3 "Z:\\gone" []).2).head?
      = some (notFoundPrompt "Z:\\gone") ∧
    get_files (fun _ => none) 3 "Z:\\gone" ["n"] = (.aborted, [notFoundPrompt "Z:\\gone"]) ∧
    runRenamer (fun _ => some "x") (fun _ _ => .ok) (fun _ => none) 3 "Z:\\gone" ["n"]
      = (emptyRenamerBuckets, [notFoundPrompt "Z:\\gone"], .normal) ∧
    runSorter (fun _ _ => .ok) (fun _ => none) 3 "Z:\\gone" "C:\\out" ["N"]
      = (emptySorterBuckets, [notFoundPrompt "Z:\\gone"], .normal) ∧
    get_files (fun _ => none) 3 "Z:\\gone" ["y", "D:\\new", "n"]
      = ((get_files (fun _ => none) 2 "D:\\new" ["n"]).1,
         notFoundPrompt "Z:\\gone" :: newPathPrompt ::
           (get_files (fun _ => none) 2 "D:\\new" ["n"]).2) ∧
    get_files (fun _ => none) 3 "Z:\\gone" ["maybe"]
      = (.badInput, [notFoundPrompt "Z:\\gone", badInputLine]) := by
  have h := C5_path_not_found_prompt (fun _ => none) 2 "Z:\\gone" rfl
  exact ⟨h.1 [], h.2.1 "n" [] (by decide),
    h.2.2.2.2.1 (fun _ => some "x") (fun _ _ => .ok) "n" [] (by decide),
    h.2.2.2.2.2 (fun _ _ => .ok) "C:\\out" "N" [] (by decide),
    h.2.2.1 "y" "D:\\new" ["n"] (by decide),
    h.2.2.2.1 "maybe" [] (by decide) (by decide)⟩

/-- C6 counterexample: the claim fails in both components.  Sorter: a
`WindowsError` with `strerror` "Access is denied" (neither already-exists
nor missing-path class) makes `move_file` record the failure with the bare
file name as the bucket entry — the underlying error text is only printed,
not preserved in the bucket.  Renamer: the same unclassified `WindowsError`
does not record a failure at all; it enters the suffix-retry loop and here
ends in a successful `_1`-suffixed rename. -/
theorem C6_counterexample :
    move_file (fun _ _ => OsResult.winError "Access is denied") 3
        "C:\\in" "C:\\out" "20230101_120000.jpg" []
      = (.failed "20230101_120000.jpg",
         [.rename "C:\\in\\20230101_120000.jpg" "C:\\out\\2023\\20230101_120000.jpg"]) ∧
    pyContains "20230101_120000.jpg" "Access is denied" = false ∧
    rename_file
        (fun tr _ => if tr = [] then OsResult.winError "Access is denied" else .ok)
        3 "C:\\q\\b.jpg" "C:\\q\\20230101_120000" ".jpg" []
      = (.renamed "\"C:\\q\\b.jpg\" renamed \"C:\\q\\20230101_120000_1.jpg\"",
         [.rename "C:\\q\\b.jpg" "C:\\q\\20230101_120000.jpg",
          .rename "C:\\q\\b.jpg" "C:\\q\\20230101_120000_1.jpg"]) := by
  refine ⟨by decide, by decide, by decide⟩

/-- C6 (amended): in the sorter, a `WindowsError` whose message matches
neither the already-exists nor the missing-path class is recorded as a
per-file failure whose bucket entry is the bare file name (the error text is
printed but not stored in the bucket); the loop terminates for that file
after that single attempt, and the batch continues with the remaining files.
In the renamer, an unclassified `WindowsError` instead enters the
suffix-retry loop; only a `TypeError` is recorded as a per-file failure
(that entry does capture the error's message), after which the batch
likewise continues. -/
theorem C6_unclassified_error_dispatch :
    (∀ (env : FsEnv) (fuel : Nat) (input base f s : String) (tr : List FsOp),
        env tr (.rename (input ++ "\\" ++ f)
            (base ++ "\\" ++ f.take 4 ++ "\\" ++ f)) = .winError s →
        pyContains s "file already exists" = false →
        pyContains s "cannot find the path" = false →
        move_file env (fuel + 1) input base f tr
          = (.failed f,
             tr ++ [.rename (input ++ "\\" ++ f)
                (base ++ "\\" ++ f.take 4 ++ "\\" ++ f)])) ∧
    (∀ (env : FsEnv) (fuel : Nat) (f nn e m : String) (tr : List FsOp),
        nn ++ e ≠ f → env tr (.rename f (nn ++ e)) = .typeError m →
        rename_file env (fuel + 1) f nn e tr
          = (.failed ("Failed to rename " ++ f ++ ". Reason: " ++ m),
             tr ++ [.rename f (nn ++ e)])) ∧
    (∀ (env : FsEnv) (fuel : Nat) (input base f e : String) (fs : List String)
        (b : SorterBuckets) (tr tr2 : List FsOp),
        processOneSort env fuel input base f tr = (.failed e, tr2) →
        processFilesSorter env fuel input base (f :: fs) b tr
          = processFilesSorter env fuel input base fs
              { b with failed_to_move := b.failed_to_move ++ [e] } tr2) ∧
    (∀ (derive : String → Option String) (env : FsEnv) (fuel : Nat) (path f e : String)
        (fs : List String) (b : RenamerBuckets) (tr tr2 : List FsOp),
        processOneRename derive env fuel path f tr = (.failed e, tr2) →
        processFilesRenamer derive env fuel path (f :: fs) b tr
          = processFilesRenamer derive env fuel path fs
              { b with failed_to_rename := b.failed_to_rename ++ [e] } tr2) := by
  refine ⟨?_, ?_, ?_, ?_⟩
  · intro env fuel input base f s tr henv h1 h2
    simp only [move_file, moveLoop]
    rw [henv]
    simp only [h1, h2]
    rfl
  · intro env fuel f nn e m tr h henv
    simp only [rename_file, renameLoop]
    rw [if_neg h, henv]
  · intro env fuel input base f e fs b tr tr2 h
    simp only [processFilesSorter, h]
  · intro derive env fuel path f e fs b tr tr2 h
    simp only [processFilesRenamer, h]

/-- Witness for C6 at concrete inputs, discharging each class hypothesis by
evaluation. -/
theorem C6_witness :
    move_file (fun _ _ => OsResult.winError "The handle is invalid") (2 + 1)
        "D:\\in" "D:\\out" "20240101_000000.jpg" []
      = (.failed "20240101_000000.jpg",
         [] ++ [.rename ("D:\\in" ++ "\\" ++ "20240101_000000.jpg")
            ("D:\\out" ++ "\\" ++ ("20240101_000000.jpg").take 4 ++ "\\" ++
              "20240101_000000.jpg")]) ∧
    rename_file (fun _ _ => OsResult.typeError "argument was None") (2 + 1)
        "D:\\p\\c.jpg" "D:\\p\\20240101_000000" ".jpg" []
      = (.failed ("Failed to rename " ++ "D:\\p\\c.jpg" ++ ". Reason: " ++
          "argument was None"),
         [] ++ [.rename "D:\\p\\c.jpg" ("D:\\p\\20240101_000000" ++ ".jpg")]) ∧
    processFilesSorter (fun _ _ => OsResult.winError "The handle is invalid") 3
        "D:\\in" "D:\\out" ["20240101_000000.jpg", "x.txt"] emptySorterBuckets []
      = processFilesSorter (fun _ _ => OsResult.winError "The handle is invalid") 3
          "D:\\in" "D:\\out" ["x.txt"]
          { emptySorterBuckets with
              failed_to_move := emptySorterBuckets.failed_to_move ++
                ["20240101_000000.jpg"] }
          [.rename "D:\\in\\20240101_000000.jpg" "D:\\out\\2024\\20240101_000000.jpg"] :=
  ⟨C6_unclassified_error_dispatch.1 (fun _ _ => OsResult.winError "The handle is invalid")
      2 "D:\\in" "D:\\out" "20240101_000000.jpg" "The handle is invalid" [] rfl
      (by decide) (by decide),
   C6_unclassified_error_dispatch.2.1 (fun _ _ => OsResult.typeError "argument was None")
      2 "D:\\p\\c.jpg" "D:\\p\\20240101_000000" ".jpg" "argument was None" []
      (by decide) rfl,
   C6_unclassified_error_dispatch.2.2.1 (fun _ _ => OsResult.winError "The handle is invalid")
      3 "D:\\in" "D:\\out" "20240101_000000.jpg" "20240101_000000.jpg" ["x.txt"]
      emptySorterBuckets []
      [.rename "D:\\in\\20240101_000000.jpg" "D:\\out\\2024\\20240101_000000.jpg"]
      (by decide)⟩

/-- C7: the sorter's destination subdirectory is exactly the first 4
characters of the file's current name and the move target is
`<base_path>\<sort_key>\<file_name>`; when the first attempt succeeds the
recorded move is to exactly that path, and concretely the file
`20230115_103000.jpg` lands in subdirectory `2023`. -/
theorem C7_sorter_destination :
    (∀ (env : FsEnv) (fuel : Nat) (input base f : String) (tr : List FsOp),
        env tr (.rename (input ++ "\\" ++ f)
            (base ++ "\\" ++ f.take 4 ++ "\\" ++ f)) = .ok →
        move_file env (fuel + 1) input base f tr
          = (.moved ("\"" ++ (input ++ "\\" ++ f) ++ "\" moved to \"" ++
              (base ++ "\\" ++ f.take 4 ++ "\\" ++ f) ++ "\"."),
             tr ++ [.rename (input ++ "\\" ++ f)
                (base ++ "\\" ++ f.take 4 ++ "\\" ++ f)])) ∧
    move_file (fun _ _ => .ok) 1 "C:\\in" "C:\\out" "20230115_103000.jpg" []
      = (.moved
          "\"C:\\in\\20230115_103000.jpg\" moved to \"C:\\out\\2023\\20230115_103000.jpg\".",
         [.rename "C:\\in\\20230115_103000.jpg" "C:\\out\\2023\\20230115_103000.jpg"]) := by
  constructor
  · intro env fuel input base f tr henv
    simp only [move_file, moveLoop]
    rw [henv]
  · decide

/-- Witness for C7: the general part applied at a concrete input. -/
theorem C7_witness :
    move_file (fun _ _ => .ok) (0 + 1) "E:\\in" "E:\\out" "20250101_000000.jpg" []
      = (.moved ("\"" ++ ("E:\\in" ++ "\\" ++ "20250101_000000.jpg") ++ "\" moved to \"" ++
          ("E:\\out" ++ "\\" ++ ("20250101_000000.jpg").take 4 ++ "\\" ++
            "20250101_000000.jpg") ++ "\"."),
         [] ++ [.rename ("E:\\in" ++ "\\" ++ "20250101_000000.jpg")
            ("E:\\out" ++ "\\" ++ ("20250101_000000.jpg").take 4 ++ "\\" ++
              "20250101_000000.jpg")]) :=
  C7_sorter_destination.1 (fun _ _ => .ok) 0 "E:\\in" "E:\\out"
    "20250101_000000.jpg" [] rfl

/-- C8: once a file's current name equals its derived name plus extension,
the renamer's name-unchanged check fires before any rename attempt: the
outcome is skipped-name-unchanged and the operation trace is untouched, so a
second run of the renamer on an already-renamed file (whose derived
timestamps the first rename left unchanged) performs no rename. -/
theorem C8_rename_idempotent :
    ∀ (derive : String → Option String) (env : FsEnv) (fuel : Nat)
      (path entry nm : String) (tr : List FsOp),
      MEDIA_EXTENSIONS.contains (pyLower (get_file_extension entry)) = true →
      derive (os_path_join path entry) = some nm →
      os_path_join path nm ++ get_file_extension entry = os_path_join path entry →
      processOneRename derive env (fuel + 1) path entry tr
        = (.skippedName (os_path_join path entry), tr) := by
  intro derive env fuel path entry nm tr hext hd hname
  simp only [processOneRename]
  rw [if_neg (by rw [hext]; decide), hd]
  simp only [rename_file, renameLoop]
  rw [if_pos hname]

/-- Witness for C8: a file already named after its derived timestamp is
skipped with an empty trace. -/
theorem C8_witness :
    processOneRename (fun _ => some "20210501_100000") (fun _ _ => .ok) (2 + 1)
        "C:\\p" "20210501_100000.jpg" []
      = (.skippedName (os_path_join "C:\\p" "20210501_100000.jpg"), []) :=
  C8_rename_idempotent (fun _ => some "20210501_100000") (fun _ _ => .ok) 2
    "C:\\p" "20210501_100000.jpg" "20210501_100000" [] (by decide) rfl (by decide)

/-- C9: a filesystem timestamp of exactly 0 is falsy in Python, so
`get_date_created` / `get_date_modified` yield no string for it (while any
nonzero timestamp is formatted); a file with both timestamps 0 and no
capture tag derives no name at all and is recorded by the renamer as failed
with "no new name could be determined". -/
theorem C9_zero_timestamp_absent :
    ∀ fmt : Int → String,
      get_date_created fmt 0 = none ∧
      get_date_modified fmt 0 = none ∧
      (∀ t : Int, t ≠ 0 → get_date_created fmt t = some (fmt t)) ∧
      (∀ t : Int, t ≠ 0 → get_date_modified fmt t = some (fmt t)) ∧
      dateName fmt 0 0 none = none ∧
      (∀ (env : FsEnv) (fuel : Nat) (path entry : String) (tr : List FsOp),
        MEDIA_EXTENSIONS.contains (pyLower (get_file_extension entry)) = true →
        processOneRename (fun _ => dateName fmt 0 0 none) env fuel path entry tr
          = (.failed ("Failed to rename " ++ os_path_join path entry ++
              " because no new name could be determined."), tr)) := by
  intro fmt
  refine ⟨rfl, rfl, ?_, ?_, rfl, ?_⟩
  · intro t ht; simp [get_date_created, ht]
  · intro t ht; simp [get_date_modified, ht]
  · intro env fuel path entry tr hext
    simp only [processOneRename]
    rw [if_neg (by rw [hext]; decide)]
    rfl

/-- Witness for C9: creation and modification timestamps 0 and no capture
tag send `epoch.jpg` to the no-new-name failure path. -/
theorem C9_witness :
    get_date_created (fun _ => "19700101_000000") 0 = none ∧
    get_date_created (fun _ => "19700101_000000") 5 = some "19700101_000000" ∧
    processOneRename (fun _ => dateName (fun _ => "19700101_000000") 0 0 none)
        (fun _ _ => .ok) 3 "C:\\p" "epoch.jpg" []
      = (.failed ("Failed to rename " ++ os_path_join "C:\\p" "epoch.jpg" ++
          " because no new name could be determined."), []) :=
  ⟨(C9_zero_timestamp_absent (fun _ => "19700101_000000")).1,
   (C9_zero_timestamp_absent (fun _ => "19700101_000000")).2.2.1 5 (by decide),
   (C9_zero_timestamp_absent (fun _ => "19700101_000000")).2.2.2.2.2
      (fun _ _ => .ok) 3 "C:\\p" "epoch.jpg" [] (by decide)⟩

/-- C10: the name-unchanged check sits at the top of every iteration of the
renamer's collision loop, so it is re-evaluated against each suffixed
candidate: whenever the current candidate equals the file's current name the
outcome is skipped-name-unchanged with no further rename attempted, and
concretely a file already bearing the `_2`-suffixed form of its derived name
is skipped after two collisions rather than renamed or failed. -/
theorem C10_suffixed_name_unchanged_check :
    (∀ (env : FsEnv) (f nn e : String) (fuel k : Nat) (tr : List FsOp),
        renameLoop env f nn e (fuel + 1) f k tr = (.skippedName f, tr)) ∧
    rename_file
        (fun _ _ => OsResult.winError "Cannot create a file when that file already exists")
        5 "C:\\p\\20200101_120000_2.jpg" "C:\\p\\20200101_120000" ".jpg" []
      = (.skippedName "C:\\p\\20200101_120000_2.jpg",
         [.rename "C:\\p\\20200101_120000_2.jpg" "C:\\p\\20200101_120000.jpg",
          .rename "C:\\p\\20200101_120000_2.jpg" "C:\\p\\20200101_120000_1.jpg"]) := by
  constructor
  · intro env f nn e fuel k tr
    simp [renameLoop]
  · decide

end FileManager
